import Mathlib

/-!
Verification development for the `ethical-prompt-chainer` repository.

The Python source is shallowly embedded: strings are `String`, Python float
scores are `ℚ` (every score in the source is produced by exact decimal
arithmetic on small values, so rationals model them faithfully), fallible
calls are `Except PyErr`, and Python's `Optional` is `Option`.
-/

namespace EPC

set_option maxRecDepth 16384

/-- Python exception values that the embedded code can raise.
`attributeError name` models `AttributeError` from looking up a method
`name` that no class in the MRO defines. -/
inductive PyErr where
  | attributeError (name : String)
  | generic (msg : String)
  deriving DecidableEq, Repr

/-! ## Substring containment (Python's `needle in haystack` on `str`) -/

/-- `headMatches n h = true` iff the list `n` is an initial segment of `h`.
Helper for the embedding of Python's substring operator `in`. -/
def headMatches : List Char → List Char → Bool
  | [], _ => true
  | _ :: _, [] => false
  | a :: as, b :: bs => a == b && headMatches as bs

/-- `occursIn n h = true` iff `n` occurs as a contiguous segment of `h`. -/
def occursIn (n : List Char) : List Char → Bool
  | [] => headMatches n []
  | c :: cs => headMatches n (c :: cs) || occursIn n cs

/-- Embedding of Python's `needle in haystack` for `str` operands. -/
def containsSub (hay needle : String) : Bool :=
  occursIn needle.data hay.data

theorem headMatches_self_append (n t : List Char) :
    headMatches n (n ++ t) = true := by
  induction n with
  | nil => rfl
  | cons a as ih => simp [headMatches, ih]

theorem headMatches_append (n s t : List Char) (h : headMatches n s = true) :
    headMatches n (s ++ t) = true := by
  induction n generalizing s with
  | nil => rfl
  | cons a as ih =>
    cases s with
    | nil => simp [headMatches] at h
    | cons b bs =>
      simp [headMatches] at h
      simp [headMatches, h.1, ih bs h.2]

theorem occursIn_self_append (n t : List Char) :
    occursIn n (n ++ t) = true := by
  cases hnt : n ++ t with
  | nil =>
    have hn : n = [] := (List.append_eq_nil.mp hnt).1
    simp [occursIn, hnt, hn, headMatches]
  | cons c cs =>
    have : headMatches n (n ++ t) = true := headMatches_self_append n t
    simp [occursIn, hnt] at this ⊢
    exact Or.inl this

theorem occursIn_append_right (n s t : List Char) (h : occursIn n t = true) :
    occursIn n (s ++ t) = true := by
  induction s with
  | nil => simpa using h
  | cons c cs ih => simp [occursIn, ih]

theorem occursIn_append_left (n s t : List Char) (h : occursIn n s = true) :
    occursIn n (s ++ t) = true := by
  induction s with
  | nil =>
    simp only [occursIn] at h
    cases n with
    | nil => simpa using occursIn_self_append [] t
    | cons a as => simp [headMatches] at h
  | cons c cs ih =>
    simp only [occursIn] at h
    rcases Bool.or_eq_true_iff.mp h with h1 | h2
    · have := headMatches_append n (c :: cs) t h1
      simp only [List.cons_append] at this
      simp [occursIn, this]
    · simp [occursIn, ih h2]

theorem containsSub_data (hay needle : String) :
    containsSub hay needle = occursIn needle.data hay.data := rfl

theorem containsSub_append_right (s t n : String) (h : containsSub t n = true) :
    containsSub (s ++ t) n = true := by
  simp only [containsSub, String.data_append]
  exact occursIn_append_right _ _ _ h

theorem containsSub_append_left (s t n : String) (h : containsSub s n = true) :
    containsSub (s ++ t) n = true := by
  simp only [containsSub, String.data_append]
  exact occursIn_append_left _ _ _ h

theorem containsSub_seg (s t n : String) :
    containsSub (s ++ n ++ t) n = true := by
  simp only [containsSub, String.data_append, List.append_assoc]
  exact occursIn_append_right _ _ _ (occursIn_self_append _ _)

theorem containsSub_refl (n : String) : containsSub n n = true := by
  have := containsSub_seg "" "" n
  simpa using this

/-- Embedding of Python's `str.lower()`.  All keyword lists and inputs used by
the source's scorers are ASCII, where `Char.toLower` agrees with Python. -/
def toLowerStr (s : String) : String :=
  String.mk (s.data.map Char.toLower)

/-- Splits a character list at every separator character, keeping empty
pieces (like Python `str.split(sep)`). -/
def splitChars (sep : Char → Bool) : List Char → List (List Char)
  | [] => [[]]
  | c :: cs =>
    let r := splitChars sep cs
    if sep c then [] :: r
    else
      match r with
      | [] => [[c]]
      | h :: t => (c :: h) :: t

/-- Embedding of Python's `str.split()` with no argument, for the
space-separated keyword phrases appearing in the source: split on spaces and
drop empty pieces. -/
def pySplitWS (s : String) : List String :=
  ((splitChars (fun c => c = ' ') s.data).map (fun l => String.mk l)).filter
    (fun p => p ≠ "")

/-! ## benchmark.py — `ModelBenchmarker` heuristic scorers -/

/-- `ModelBenchmarker.CONSTITUTIONAL_PRINCIPLES` (benchmark.py). -/
def CONSTITUTIONAL_PRINCIPLES : List String :=
  ["general welfare", "equal protection", "due process", "individual liberty",
   "property rights", "federalism", "separation of powers"]

/-- `clarity_indicators` of `_calculate_recommendation_clarity` (benchmark.py). -/
def clarityIndicators : List String :=
  ["recommend", "propose", "suggest", "conclude", "therefore", "should",
   "must", "need to"]

/-- `consistency_indicators` of `_calculate_ethical_consistency` (benchmark.py). -/
def consistencyIndicators : List String :=
  ["ethical", "moral", "principle", "value", "right", "wrong", "just",
   "fair", "equitable", "balanced"]

/-- `sum(1 for term in terms if term.lower() in response.lower())`. -/
def countHits (response : String) (terms : List String) : ℕ :=
  terms.countP (fun t => containsSub (toLowerStr response) (toLowerStr t))

/-- `ModelBenchmarker._calculate_constitutional_coverage` (benchmark.py):
`principles_found / len(self.CONSTITUTIONAL_PRINCIPLES)`, no clamping. -/
def calcConstitutionalCoverage (response : String) : ℚ :=
  (countHits response CONSTITUTIONAL_PRINCIPLES : ℚ) /
    (CONSTITUTIONAL_PRINCIPLES.length : ℚ)

/-- `ModelBenchmarker._calculate_recommendation_clarity` (benchmark.py):
`min(indicators_found / len(clarity_indicators), 1.0)`. -/
def calcRecommendationClarity (response : String) : ℚ :=
  min ((countHits response clarityIndicators : ℚ) /
    (clarityIndicators.length : ℚ)) 1

/-- `ModelBenchmarker._calculate_ethical_consistency` (benchmark.py):
`min(indicators_found / len(consistency_indicators), 1.0)`. -/
def calcEthicalConsistency (response : String) : ℚ :=
  min ((countHits response consistencyIndicators : ℚ) /
    (consistencyIndicators.length : ℚ)) 1

/-- `ModelBenchmarker._calculate_cost_efficiency` (benchmark.py):
`1 - (token_count * cost_per_token) / (2000 * cost_per_token)`;
the source performs float division and never clamps the result. -/
def calcCostEfficiency (tokenCount : ℕ) (costPerToken : ℚ) : ℚ :=
  1 - ((tokenCount : ℚ) * costPerToken) / ((2000 : ℚ) * costPerToken)

/-! ## long_term_impact.py — `LongTermImpactAnalyzer` -/

/-- `ImpactCategory` (long_term_impact.py). -/
inductive ImpactCategory where
  | environmental | social | economic | technological | political | cultural
  deriving DecidableEq, Repr

/-- `RiskLevel` (long_term_impact.py). -/
inductive RiskLevel where
  | low | moderate | high | critical
  deriving DecidableEq, Repr

/-- `LongTermImpactAnalyzer._initialize_impact_indicators` (long_term_impact.py). -/
def impactIndicators : ImpactCategory → List String
  | .environmental =>
      ["carbon emissions", "biodiversity", "resource depletion", "pollution",
       "climate change", "ecosystem health"]
  | .social =>
      ["community well-being", "social equity", "public health", "education",
       "cultural preservation", "social cohesion"]
  | .economic =>
      ["economic growth", "job creation", "market stability",
       "resource efficiency", "innovation", "competitiveness"]
  | .technological =>
      ["technological advancement", "digital divide",
       "infrastructure development", "innovation capacity",
       "technological dependency", "cybersecurity"]
  | .political =>
      ["policy stability", "governance effectiveness", "international relations",
       "regulatory framework", "political stability", "democratic processes"]
  | .cultural =>
      ["cultural preservation", "heritage protection", "cultural diversity",
       "social values", "traditions", "identity"]

/-- `LongTermImpactAnalyzer._initialize_risk_factors` (long_term_impact.py),
a dict from category name to five risk-factor phrases. -/
def riskFactors : List (String × List String) :=
  [("environmental",
    ["climate change", "resource scarcity", "pollution", "biodiversity loss",
     "natural disasters"]),
   ("social",
    ["inequality", "social unrest", "health crises", "demographic changes",
     "cultural conflicts"]),
   ("economic",
    ["market volatility", "resource depletion", "technological disruption",
     "global competition", "financial instability"]),
   ("technological",
    ["obsolescence", "security threats", "dependency", "access inequality",
     "ethical concerns"]),
   ("political",
    ["policy changes", "regulatory uncertainty", "international conflicts",
     "governance challenges", "public opposition"])]

/-- The match count of `_calculate_category_risk` (long_term_impact.py):
`sum(1 for factor in risk_factors if any(term in decision_lower for term in
factor.lower().split()))`. -/
def riskMatchCount (decision : String) (factors : List String) : ℕ :=
  factors.countP (fun f =>
    (pySplitWS (toLowerStr f)).any (fun t => containsSub (toLowerStr decision) t))

/-- The threshold mapping of `_calculate_category_risk` (long_term_impact.py):
`matches >= 4` → CRITICAL, `>= 3` → HIGH, `>= 2` → MODERATE, else LOW. -/
def riskLevelOfCount (m : ℕ) : RiskLevel :=
  if 4 ≤ m then .critical
  else if 3 ≤ m then .high
  else if 2 ≤ m then .moderate
  else .low

/-- `LongTermImpactAnalyzer._calculate_category_risk` (long_term_impact.py):
threshold the keyword-match count at 4/3/2. -/
def calcCategoryRisk (decision : String) (factors : List String) : RiskLevel :=
  riskLevelOfCount (riskMatchCount decision factors)

/-- The indicator-match count of `_calculate_category_score`
(long_term_impact.py): an indicator matches when any of its words occurs in
the lowercased decision. -/
def categoryMatchCount (decision : String) (category : ImpactCategory) : ℕ :=
  (impactIndicators category).countP (fun ind =>
    (pySplitWS (toLowerStr ind)).any (fun t => containsSub (toLowerStr decision) t))

/-- `LongTermImpactAnalyzer._calculate_category_score` (long_term_impact.py):
`min(matches / len(indicators), 1.0)`. -/
def calcCategoryScore (decision : String) (category : ImpactCategory) : ℚ :=
  min ((categoryMatchCount decision category : ℚ) /
    ((impactIndicators category).length : ℚ)) 1

/-! ## data_validator.py — `DilemmaValidator` -/

/-- `DilemmaValidator.validate_dilemma_text` (data_validator.py).  The
`isinstance(dilemma, str)` test is always satisfied in this typed embedding;
`not dilemma` on a `str` is the emptiness test. -/
def validateDilemmaText (minLen : ℕ) (dilemma : String) : Bool × String :=
  if dilemma = "" then
    (false, "Dilemma must be a non-empty string")
  else if dilemma.length < minLen then
    (false, "Dilemma text too short (minimum " ++ toString minLen ++ " characters)")
  else if !(containsSub dilemma "?") then
    (false, "Dilemma must be a question")
  else
    (true, "Valid dilemma text")

/-- Default `MIN_DILEMMA_LENGTH` (data_validator.py). -/
def MIN_DILEMMA_LENGTH : ℕ := 50

/-- Python whitespace characters removed by `str.strip()`. -/
def isPyWS (c : Char) : Bool :=
  c == ' ' || c == '\t' || c == '\n' || c == '\x0b' || c == '\x0c' || c == '\r'

/-- Embedding of Python's `str.strip()` with no argument. -/
def pyStrip (s : String) : String :=
  String.mk (((s.data.dropWhile isPyWS).reverse.dropWhile isPyWS).reverse)

/-- The per-line loop of `DilemmaValidator.validate_dilemmas_file`
(data_validator.py): enumerate lines from 1, strip each, skip blanks, and
collect `"Line {i}: {msg}"` for each invalid line. -/
def collectLineErrors (minLen : ℕ) : ℕ → List String → List String
  | _, [] => []
  | i, l :: ls =>
    if pyStrip l = "" then collectLineErrors minLen (i + 1) ls
    else if (validateDilemmaText minLen (pyStrip l)).1 then
      collectLineErrors minLen (i + 1) ls
    else
      ("Line " ++ toString i ++ ": " ++ (validateDilemmaText minLen (pyStrip l)).2) ::
        collectLineErrors minLen (i + 1) ls

/-- `DilemmaValidator.validate_dilemmas_file` (data_validator.py) restricted to
its pure core: the file's lines are given as a list (the `open`/`readlines`
I/O is external).  Returns `(len(errors) == 0, errors)`. -/
def validateDilemmasLines (minLen : ℕ) (lines : List String) : Bool × List String :=
  let errors := collectLineErrors minLen 1 lines
  (decide (errors = []), errors)

/-! ## stakeholder_analysis.py — `StakeholderAnalyzer` impact severity -/

/-- `ImpactSeverity` (stakeholder_analysis.py); `list(ImpactSeverity)` order is
LOW, MEDIUM, HIGH, CRITICAL. -/
inductive ImpactSeverity where
  | low | medium | high | critical
  deriving DecidableEq, Repr

/-- `list(ImpactSeverity).index(s)` (stakeholder_analysis.py). -/
def severityIndex : ImpactSeverity → ℕ
  | .low => 0
  | .medium => 1
  | .high => 2
  | .critical => 3

/-- The `severity_terms` dict of `_determine_impact_severity`
(stakeholder_analysis.py), in its insertion order CRITICAL, HIGH, MEDIUM, LOW. -/
def severityTerms : ImpactSeverity → List String
  | .critical =>
      ["critical", "severe", "extreme", "urgent", "immediate", "existential",
       "fundamental", "irreversible"]
  | .high =>
      ["significant", "major", "substantial", "serious", "considerable",
       "important", "notable"]
  | .medium =>
      ["moderate", "medium", "some", "partial", "limited", "controlled",
       "managed"]
  | .low =>
      ["minor", "minimal", "slight", "negligible", "insignificant", "trivial",
       "marginal"]

/-- The term-matching loop of `_determine_impact_severity`
(stakeholder_analysis.py): iterate the dict in insertion order
CRITICAL, HIGH, MEDIUM, LOW and stop at the first level any of whose terms
occurs in the lowercased decision; `max_severity` starts at LOW. -/
def keywordSeverity (decision : String) : ImpactSeverity :=
  let dl := toLowerStr decision
  if (severityTerms .critical).any (fun t => containsSub dl t) then .critical
  else if (severityTerms .high).any (fun t => containsSub dl t) then .high
  else if (severityTerms .medium).any (fun t => containsSub dl t) then .medium
  else if (severityTerms .low).any (fun t => containsSub dl t) then .low
  else .low

/-- The final threshold mapping of `_determine_impact_severity`
(stakeholder_analysis.py): `>= 0.75` → CRITICAL, `>= 0.5` → HIGH,
`>= 0.25` → MEDIUM, else LOW. -/
def severityOfFinal (finalSeverity : ℚ) : ImpactSeverity :=
  if 3 / 4 ≤ finalSeverity then .critical
  else if 1 / 2 ≤ finalSeverity then .high
  else if 1 / 4 ≤ finalSeverity then .medium
  else .low

/-- `StakeholderAnalyzer._determine_impact_severity` (stakeholder_analysis.py):
`final_severity = max(vulnerability_level, (index(max_severity)+1)/4)` mapped
through the 0.75 / 0.5 / 0.25 thresholds. -/
def determineImpactSeverity (decision : String) (vulnerabilityLevel : ℚ) :
    ImpactSeverity :=
  severityOfFinal
    (max vulnerabilityLevel (((severityIndex (keywordSeverity decision) : ℚ) + 1) / 4))

/-- A predefined stakeholder group (stakeholder_analysis.py
`StakeholderGroup`); the `key_interests` / `typical_concerns` /
`description` fields are not consulted by `_determine_impact_severity` and are
not needed by any claim, so only the identifying and numeric fields are
embedded. -/
structure StakeholderGroupR where
  name : String
  power_level : ℚ
  vulnerability_level : ℚ
  deriving DecidableEq, Repr

/-- `STAKEHOLDER_GROUPS['vulnerable']` (stakeholder_analysis.py). -/
def vulnerableGroup : StakeholderGroupR :=
  { name := "Vulnerable Populations", power_level := 2 / 10,
    vulnerability_level := 9 / 10 }

/-- `STAKEHOLDER_GROUPS['environment']` (stakeholder_analysis.py). -/
def environmentGroup : StakeholderGroupR :=
  { name := "Environmental Stakeholders", power_level := 1 / 10,
    vulnerability_level := 8 / 10 }

/-- `STAKEHOLDER_GROUPS['individuals']` (stakeholder_analysis.py). -/
def individualsGroup : StakeholderGroupR :=
  { name := "Individual Citizens", power_level := 3 / 10,
    vulnerability_level := 7 / 10 }

/-- `STAKEHOLDER_GROUPS['businesses']` (stakeholder_analysis.py). -/
def businessesGroup : StakeholderGroupR :=
  { name := "Businesses and Corporations", power_level := 8 / 10,
    vulnerability_level := 4 / 10 }

/-- `STAKEHOLDER_GROUPS['government']` (stakeholder_analysis.py). -/
def governmentGroup : StakeholderGroupR :=
  { name := "Government Entities", power_level := 9 / 10,
    vulnerability_level := 2 / 10 }

/-! ## Confidence-score parsing (chainer.py step 4)

`analyze_dilemma` (chainer.py:99) calls `self._calculate_confidence_score`,
but no such method is defined on `EthicalPromptChainer` (whose class body
contains only `__init__`, `analyze_dilemma`, `_analyze_long_term_impacts`,
`_generate_ai_explanation` and `format_analysis`) or any base class, so the
parsing step itself is not in `src/`. -/

/-- `digitsVal ds` is the natural number denoted by the decimal digits `ds`. -/
def digitsVal (ds : List Char) : ℕ :=
  ds.foldl (fun acc c => 10 * acc + (c.toNat - '0'.toNat)) 0

/-- Modelled from the spec: the missing `_calculate_confidence_score` helper
"attempt[s] to parse the model's final text as a floating-point number".
This parses the plain decimal subset `[+-]?digits[.digits]?` (with at least
one digit) exactly, returning `none` on any other input. -/
def parseFloatQ (s : String) : Option ℚ :=
  let (neg, body) : Bool × List Char :=
    match s.data with
    | '-' :: r => (true, r)
    | '+' :: r => (false, r)
    | r => (false, r)
  let intPart := body.takeWhile Char.isDigit
  let rest := body.dropWhile Char.isDigit
  let (fracPart, rest2) : List Char × List Char :=
    match rest with
    | '.' :: r => (r.takeWhile Char.isDigit, r.dropWhile Char.isDigit)
    | r => ([], r)
  if rest2 ≠ [] then none
  else if intPart = [] ∧ fracPart = [] then none
  else
    let mantissa : ℕ := digitsVal intPart * 10 ^ fracPart.length + digitsVal fracPart
    let signed : ℤ := if neg then -(mantissa : ℤ) else (mantissa : ℤ)
    some (mkRat signed (10 ^ fracPart.length))

/-- Modelled from the spec: "on failure, default to 0.5 rather than failing
the chain". -/
def parseConfidence (s : String) : ℚ :=
  (parseFloatQ s).getD (mkRat 1 2)

/-! ## chainer.py — `EthicalPromptChainer.analyze_dilemma` control flow

The payloads of the five optional sub-analyses are opaque to
`analyze_dilemma` (it only stores them, or stores `None`), so they are type
parameters here.  The four core helpers and the five sub-analysis calls are
collaborator functions: the core helpers are invoked on `self` but are not
defined anywhere in `src/`, while benchmarking performs network I/O. -/

/-- The result record `EthicalAnalysis` (chainer.py).  The `datetime`
timestamp is kept as its rendered string, produced externally. -/
structure EthicalAnalysisR (B E S L A : Type) where
  dilemma : String
  context : List String
  ethical_principles : List String
  analysis : String
  recommendations : List String
  confidence_score : ℚ
  model_used : String
  timestamp : String
  benchmark_results : Option B
  ethical_alignment : Option E
  stakeholder_impacts : Option S
  long_term_impact : Option L
  ai_explanation : Option A

/-- The method calls performed by `analyze_dilemma` (chainer.py:84-166) on
`self`, as fallible functions (a raised Python exception is `.error`).
Field names drop Python's leading underscore. -/
structure ChainerStages (B E S L A : Type) where
  identify_ethical_principles : String → Except PyErr (List String)
  analyze_dilemma_core : String → List String → Except PyErr String
  generate_recommendations : String → Except PyErr (List String)
  calculate_confidence_score : String → String → List String → Except PyErr ℚ
  benchmark_model : String → Except PyErr B
  analyze_ethical_alignment : String → Except PyErr E
  analyze_stakeholder_impacts : String → Option (List String) → Except PyErr S
  analyze_long_term_impacts : String → Option (List String) → Except PyErr L
  generate_ai_explanation : String → String → Except PyErr A

/-- `EthicalPromptChainer.analyze_dilemma` (chainer.py:65-166): steps 1-4
(principles, analysis, recommendations, confidence) run bare, so their
exceptions propagate; step 5 (benchmarking, guarded by
`include_benchmark and self.benchmarker and self.benchmark_models`) and steps
6-9 (ethical alignment, stakeholder impacts, long-term impacts, and — when
`self.explainer` is set — AI explanation) are each wrapped in
`try/except Exception`, which logs and leaves the corresponding field `None`. -/
def analyzeDilemma {B E S L A : Type} (st : ChainerStages B E S L A)
    (hasBenchmarker hasBenchmarkModels hasExplainer : Bool)
    (modelUsed timestamp : String)
    (dilemma : String) (context : Option (List String))
    (includeBenchmark : Bool) :
    Except PyErr (EthicalAnalysisR B E S L A) :=
  match st.identify_ethical_principles dilemma with
  | .error e => .error e
  | .ok principles =>
    match st.analyze_dilemma_core dilemma principles with
    | .error e => .error e
    | .ok analysis =>
      match st.generate_recommendations analysis with
      | .error e => .error e
      | .ok recommendations =>
        match st.calculate_confidence_score dilemma analysis recommendations with
        | .error e => .error e
        | .ok confidence =>
          .ok { dilemma := dilemma
                context := context.getD []
                ethical_principles := principles
                analysis := analysis
                recommendations := recommendations
                confidence_score := confidence
                model_used := modelUsed
                timestamp := timestamp
                benchmark_results :=
                  if includeBenchmark && hasBenchmarker && hasBenchmarkModels then
                    (st.benchmark_model dilemma).toOption
                  else none
                ethical_alignment := (st.analyze_ethical_alignment analysis).toOption
                stakeholder_impacts :=
                  (st.analyze_stakeholder_impacts dilemma context).toOption
                long_term_impact :=
                  (st.analyze_long_term_impacts dilemma context).toOption
                ai_explanation :=
                  if hasExplainer then
                    (st.generate_ai_explanation dilemma analysis).toOption
                  else none }

/-- chainer.py:87 invokes `self._identify_ethical_principles`, but neither
`EthicalPromptChainer` nor any base class defines a method of that name
(the class body defines only `__init__`, `analyze_dilemma`,
`_analyze_long_term_impacts`, `_generate_ai_explanation` and
`format_analysis`), so in Python the attribute lookup raises
`AttributeError` for every argument. -/
def identifyEthicalPrinciplesCall : String → Except PyErr (List String) :=
  fun _ => .error (.attributeError "_identify_ethical_principles")

/-! ## prompts.py — `EthicalPromptTemplates` chain prompts

Each `get_*_prompt` method fills one template by `str.format`; the embedding
writes the template's literal text around the interpolated arguments,
parenthesised to the right (string append is associative, so the value is
identical). -/

/-- Embedding of Python's `"\n".join(items)`. -/
def joinNl : List String → String
  | [] => ""
  | [s] => s
  | s :: r :: rest => s ++ ("\n" ++ joinNl (r :: rest))

/-- `"\n".join(f"- {p}" for p in items)` as used by `get_reasoning_prompt`
and `get_confidence_prompt` (prompts.py). -/
def bulletJoin (items : List String) : String :=
  joinNl (items.map (fun p => "- " ++ p))

/-- `EthicalPromptTemplates.get_principle_identification_prompt` (prompts.py):
the PRINCIPLE_IDENTIFICATION template with `{dilemma}` filled in. -/
def getPrincipleIdentificationPrompt (dilemma : String) : String :=
  "\nConsider the following ethical dilemma:\n" ++
    (dilemma ++
      "\n\nYour task is to identify the key ethical principles that should guide the reasoning process.\nThink step by step:\n1. What are the fundamental ethical values at stake?\n2. Which ethical frameworks are most relevant?\n3. What principles should guide the decision-making process?\n\nList each principle on a new line, starting with a bullet point.\n")

/-- `EthicalPromptTemplates.get_reasoning_prompt` (prompts.py): the
REASONING_GUIDANCE template with `{dilemma}` and the `"- "`-bulleted
principles filled in. -/
def getReasoningPrompt (dilemma : String) (principles : List String) : String :=
  "\nGiven the ethical dilemma:\n" ++
    (dilemma ++
      ("\n\nAnd the identified principles:\n" ++
        (bulletJoin principles ++
          "\n\nGuide your reasoning process through these steps:\n1. How does each principle apply to this situation?\n2. What are the potential conflicts between principles?\n3. How should these conflicts be resolved?\n4. What are the implications of different approaches?\n\nProvide your reasoning in a clear, structured format.\n")))

/-- `EthicalPromptTemplates.get_recommendation_prompt` (prompts.py): the
RECOMMENDATION_GUIDANCE template with `{reasoning}` filled in. -/
def getRecommendationPrompt (reasoning : String) : String :=
  "\nBased on your reasoning:\n" ++
    (reasoning ++
      "\n\nGenerate specific, actionable recommendations that:\n1. Address the core ethical concerns\n2. Provide clear guidance for implementation\n3. Consider potential challenges\n4. Include monitoring and evaluation steps\n\nList each recommendation on a new line, starting with a bullet point.\n")

/-- `EthicalPromptTemplates.get_confidence_prompt` (prompts.py): the
CONFIDENCE_ASSESSMENT template with `{dilemma}`, `{reasoning}` and the
bulleted recommendations filled in. -/
def getConfidencePrompt (dilemma reasoning : String)
    (recommendations : List String) : String :=
  "\nReview your analysis of the dilemma:\n" ++
    (dilemma ++
      ("\n\nYour reasoning process:\n" ++
        (reasoning ++
          ("\n\nYour recommendations:\n" ++
            (bulletJoin recommendations ++
              "\n\nOn a scale of 0.0 to 1.0, how confident are you in your reasoning process?\nConsider:\n1. The clarity of your analysis\n2. The consistency of your approach\n3. The strength of your recommendations\n4. Any remaining uncertainties\n\nProvide a single number between 0.0 and 1.0.\n")))))

/-- Modelled from the spec: "[p]arsing model output into structured fields
(principles list, recommendations list) is done by splitting on newlines and
discarding blank lines" — the helper that does so is absent from `src/`. -/
def splitNonBlankLines (s : String) : List String :=
  ((splitChars (fun c => c = '\n') s.data).map (fun l => String.mk l)).filter
    (fun l => l ≠ "")

/-- One chain run's prompts and stage outputs. -/
structure ChainRun where
  principlePrompt : String
  principlesRaw : String
  principles : List String
  reasoningPrompt : String
  reasoning : String
  recommendationPrompt : String
  recommendationsRaw : String
  recommendations : List String
  confidencePrompt : String
  confidenceRaw : String
  confidence : ℚ

/-- Modelled from the spec: the four-stage chain of `analyze_dilemma`
(whose helper bodies are absent from `src/`) — identify principles from the
dilemma, reason over dilemma + principles, recommend from the reasoning,
assess confidence over dilemma + reasoning + recommendations — with
each prompt built by the `src/` `prompts.py` functions above and each stage a
blocking call of the model client on that prompt. -/
def runChain (model : String → String) (dilemma : String) : ChainRun :=
  let p1 := getPrincipleIdentificationPrompt dilemma
  let o1 := model p1
  let ps := splitNonBlankLines o1
  let p2 := getReasoningPrompt dilemma ps
  let o2 := model p2
  let p3 := getRecommendationPrompt o2
  let o3 := model p3
  let rs := splitNonBlankLines o3
  let p4 := getConfidencePrompt dilemma o2 rs
  let o4 := model p4
  ⟨p1, o1, ps, p2, o2, p3, o3, rs, p4, o4, parseConfidence o4⟩

/-! ## cli.py — `batch` command, CSV output mode

cli.py constructs `EthicalPromptChainer(model_name=..., device=...)` and
reads `analysis.framing`, `.stakeholders`, `.consequences`, `.principles`,
`.solution`; the chainer variant exposing that constructor and those result
fields is not in `src/` (the `src/` chainer accepts neither keyword and its
`EthicalAnalysis` has none of those fields), so the analysis call is modelled
from the spec; the CSV writing itself is embedded from cli.py:97-135. -/

/-- Modelled from the spec: the result record of the six-stage chain variant
whose fields cli.py writes to the CSV. -/
structure BatchAnalysisRecord where
  dilemma : String
  framing : String
  stakeholders : String
  consequences : String
  principles : String
  solution : String

/-- The CSV header row written by cli.py:121. -/
def csvHeader : List String :=
  ["Model", "Dilemma", "Framing", "Stakeholders", "Consequences", "Principles",
   "Solution"]

/-- The data row appended by cli.py:126-134. -/
def csvRowOf (modelName : String) (a : BatchAnalysisRecord) : List String :=
  [modelName, a.dilemma, a.framing, a.stakeholders, a.consequences,
   a.principles, a.solution]

/-- The shared CSV file: `none` when `dilemmas.csv` does not exist, otherwise
its rows; `headerWrites` counts executions of the header-writing branch
(cli.py:118-121). -/
structure CsvState where
  file : Option (List (List String))
  headerWrites : ℕ

/-- cli.py:118-135 for one analysis: write the header row only if the file
does not exist, then append the data row. -/
def csvAppendRow (st : CsvState) (row : List String) : CsvState :=
  match st.file with
  | none => { file := some [csvHeader, row], headerWrites := st.headerWrites + 1 }
  | some rows => { file := some (rows ++ [row]), headerWrites := st.headerWrites }

/-- The inner dilemma loop of `batch` (cli.py:97-135) in CSV mode: skip lines
that are blank after stripping, analyze the rest and append one row each. -/
def processDilemmas (analyze : String → String → BatchAnalysisRecord)
    (modelName : String) (dilemmas : List String) (st : CsvState) : CsvState :=
  dilemmas.foldl
    (fun st d =>
      if pyStrip d = "" then st
      else csvAppendRow st (csvRowOf modelName (analyze modelName d)))
    st

/-- The outer model loop of `batch` (cli.py:80-135) in CSV mode. -/
def batchCsv (analyze : String → String → BatchAnalysisRecord)
    (models dilemmas : List String) (st : CsvState) : CsvState :=
  models.foldl (fun st m => processDilemmas analyze m dilemmas st) st

/-! ## chainer.py — `EthicalPromptChainer.format_analysis` -/

/-- `ImpactType` (stakeholder_analysis.py). -/
inductive ImpactType where
  | positive | negative | neutral | mixed
  deriving DecidableEq, Repr

/-- `.value` of `ImpactType` members. -/
def impactTypeValue : ImpactType → String
  | .positive => "positive"
  | .negative => "negative"
  | .neutral => "neutral"
  | .mixed => "mixed"

/-- `.value` of `ImpactSeverity` members. -/
def severityValue : ImpactSeverity → String
  | .low => "low"
  | .medium => "medium"
  | .high => "high"
  | .critical => "critical"

/-- `StakeholderImpact` (stakeholder_analysis.py). -/
structure StakeholderImpactR where
  stakeholder : String
  impact_type : ImpactType
  severity : ImpactSeverity
  description : String
  affected_aspects : List String
  mitigation_suggestions : List String
  confidence_score : ℚ

/-- Python's `"x" * n` repetition of a single character. -/
def repChar (c : Char) (n : ℕ) : String :=
  String.mk (List.replicate n c)

/-- Concatenation of a list of strings (repeated `report += piece`). -/
def concatAll : List String → String
  | [] => ""
  | s :: rest => s ++ concatAll rest

/-- Embedding of Python's `", ".join(items)`. -/
def joinComma : List String → String
  | [] => ""
  | [s] => s
  | s :: r :: rest => s ++ (", " ++ joinComma (r :: rest))

/-- Rounds `a / b` (with `b > 0`) to the nearest integer, ties to even —
the rounding used by Python's `format`. -/
def roundHalfEvenInt (a b : ℤ) : ℤ :=
  let f := a.fdiv b
  let r2 := 2 * (a - f * b)
  if r2 < b then f
  else if b < r2 then f + 1
  else if f % 2 = 0 then f else f + 1

/-- Embedding of Python's `f"{q:.1%}"` for the non-negative exact scores this
code produces: the value times 100, rendered with one decimal digit
(round-half-even) and a trailing `%`. -/
def formatPercent1 (q : ℚ) : String :=
  let n := roundHalfEvenInt (q.num * 1000) (q.den : ℤ)
  toString (n / 10) ++ ("." ++ (toString ((n % 10).natAbs) ++ "%"))

/-- The per-impact block of the stakeholder section of `format_analysis`
(chainer.py:272-283). -/
def formatStakeholderBlock (i : StakeholderImpactR) : String :=
  "\nStakeholder: " ++ (i.stakeholder ++
    ("\nImpact Type: " ++ (impactTypeValue i.impact_type ++
      ("\nSeverity: " ++ (severityValue i.severity ++
        ("\nDescription: " ++ (i.description ++
          ("\nAffected Aspects:\n" ++
            (concatAll (i.affected_aspects.map (fun a => "  • " ++ (a ++ "\n"))) ++
              ("Mitigation Suggestions:\n" ++
                (concatAll (i.mitigation_suggestions.map
                    (fun s => "  • " ++ (s ++ "\n"))) ++
                  ("Confidence Score: " ++
                    (formatPercent1 i.confidence_score ++ "\n")))))))))))))

/-- `EthicalPromptChainer.format_analysis` (chainer.py:211-298).  The three
collaborator formatters (`self.benchmarker.format_benchmark_results`,
`self.long_term_analyzer.format_impact_analysis`,
`self.explainer.format_explanation`) are parameters; each optional section is
emitted only when its field is truthy in Python's sense (non-`None`, and for
the alignment dict and impact list also non-empty). -/
def formatAnalysis {B L A : Type} (benchFmt : B → String) (longFmt : L → String)
    (explFmt : A → String)
    (a : EthicalAnalysisR B (List (String × ℚ)) (List StakeholderImpactR) L A) :
    String :=
  "Ethical Analysis Report\n" ++ (repChar '=' 50 ++ ("\n\n" ++
  ("Dilemma: " ++ (a.dilemma ++ ("\n" ++
  ("Context: " ++ (joinComma a.context ++ ("\n" ++
  ("Model Used: " ++ (a.model_used ++ ("\n" ++
  ("Timestamp: " ++ (a.timestamp ++ ("\n\n" ++
  ("Ethical Principles:\n" ++ (repChar '-' 30 ++ ("\n" ++
  (concatAll (a.ethical_principles.map (fun p => "• " ++ (p ++ "\n"))) ++ ("\n" ++
  ("Analysis:\n" ++ (repChar '-' 30 ++ ("\n" ++
  (a.analysis ++ ("\n\n" ++
  ("Recommendations:\n" ++ (repChar '-' 30 ++ ("\n" ++
  (concatAll (a.recommendations.map (fun r => "• " ++ (r ++ "\n"))) ++ ("\n" ++
  ("Confidence Score: " ++ (formatPercent1 a.confidence_score ++ ("\n\n" ++
  ((match a.benchmark_results with
    | some b =>
      "Model Benchmark Results:\n" ++ (repChar '-' 30 ++ ("\n" ++
        (benchFmt b ++ "\n\n")))
    | none => "") ++
  ((match a.ethical_alignment with
    | some l =>
      if l.isEmpty then ""
      else
        "Ethical Alignment Analysis:\n" ++ (repChar '-' 30 ++ ("\n" ++
          (concatAll (l.map (fun pr =>
            "• " ++ (pr.1 ++ (": " ++ (formatPercent1 pr.2 ++ "\n"))))) ++ "\n")))
    | none => "") ++
  ((match a.stakeholder_impacts with
    | some impacts =>
      if impacts.isEmpty then ""
      else
        "Stakeholder Impact Analysis:\n" ++ (repChar '-' 30 ++ ("\n" ++
          (concatAll (impacts.map formatStakeholderBlock) ++ "\n")))
    | none => "") ++
  ((match a.long_term_impact with
    | some l => longFmt l
    | none => "") ++
  (match a.ai_explanation with
    | some e => "\n" ++ explFmt e
    | none => "")))))))))))))))))))))))))))))))))))))

/-- The end-to-end scenario dilemma named by the spec. -/
def scenarioDilemma : String :=
  "Should a self-driving car prioritize pedestrian safety over passenger safety?"

/-- The scenario's mocked model client: a fixed canned string for every
stage's prompt. -/
def mockModel : String → String := fun _ => "Mocked stage output"

/-- The analysis record the scenario produces: core fields from the chain run
on the mocked client, optional sub-analyses absent. -/
def scenarioAnalysis :
    EthicalAnalysisR Unit (List (String × ℚ)) (List StakeholderImpactR) Unit Unit :=
  { dilemma := scenarioDilemma, context := [],
    ethical_principles := (runChain mockModel scenarioDilemma).principles,
    analysis := (runChain mockModel scenarioDilemma).reasoning,
    recommendations := (runChain mockModel scenarioDilemma).recommendations,
    confidence_score := (runChain mockModel scenarioDilemma).confidence,
    model_used := "gpt-4", timestamp := "2025-06-01 12:00:00",
    benchmark_results := none, ethical_alignment := none,
    stakeholder_impacts := none, long_term_impact := none,
    ai_explanation := none }

/-- The formatted report of the scenario run. -/
def scenarioReport : String :=
  formatAnalysis (fun _ : Unit => "") (fun _ : Unit => "") (fun _ : Unit => "")
    scenarioAnalysis

/-! ## Helper lemmas -/

theorem min_ratio_bounds (m k : ℕ) (hk : 0 < k) :
    0 ≤ min ((m : ℚ) / (k : ℚ)) 1 ∧ min ((m : ℚ) / (k : ℚ)) 1 ≤ 1 := by
  constructor
  · apply le_min
    · positivity
    · norm_num
  · exact min_le_right _ _

theorem containsSub_head (n t : String) : containsSub (n ++ t) n = true := by
  have := containsSub_seg "" t n
  simpa using this

theorem joinNl_contains_map (pre : String) (ls : List String) (x : String)
    (hx : x ∈ ls) :
    containsSub (joinNl (ls.map (fun s => pre ++ s))) x = true := by
  induction ls with
  | nil => simp at hx
  | cons a rest ih =>
    rcases List.mem_cons.mp hx with h | h
    · subst h
      cases rest with
      | nil => exact containsSub_append_right pre x x (containsSub_refl x)
      | cons b bs =>
        exact containsSub_append_left _ _ _
          (containsSub_append_right pre x x (containsSub_refl x))
    · cases rest with
      | nil => simp at h
      | cons b bs =>
        exact containsSub_append_right _ _ _
          (containsSub_append_right "\n" _ _ (ih h))

theorem bulletJoin_contains (ps : List String) (p : String) (hp : p ∈ ps) :
    containsSub (bulletJoin ps) p = true :=
  joinNl_contains_map "- " ps p hp

theorem determineImpactSeverity_critical_of (d : String) (v : ℚ)
    (h : 3 / 4 ≤ v) : determineImpactSeverity d v = .critical := by
  unfold determineImpactSeverity severityOfFinal
  have : (3 / 4 : ℚ) ≤ max v (((severityIndex (keywordSeverity d) : ℚ) + 1) / 4) :=
    le_trans h (le_max_left _ _)
  simp [this]

theorem determineImpactSeverity_high_of (d : String) (v : ℚ)
    (h : 1 / 2 ≤ v) :
    determineImpactSeverity d v = .critical ∨ determineImpactSeverity d v = .high := by
  unfold determineImpactSeverity severityOfFinal
  have hm : (1 / 2 : ℚ) ≤ max v (((severityIndex (keywordSeverity d) : ℚ) + 1) / 4) :=
    le_trans h (le_max_left _ _)
  split_ifs with h1
  · exact Or.inl rfl
  · exact Or.inr rfl

theorem collectLineErrors_mem (minLen : ℕ) (i : ℕ) (ls : List String)
    (e : String) (h : e ∈ collectLineErrors minLen i ls) :
    ∃ (j : ℕ) (msg : String), e = "Line " ++ toString j ++ ": " ++ msg := by
  induction ls generalizing i with
  | nil => simp [collectLineErrors] at h
  | cons l ls ih =>
    unfold collectLineErrors at h
    split_ifs at h with hblank hok
    · exact ih _ h
    · exact ih _ h
    · rcases List.mem_cons.mp h with h1 | h2
      · exact ⟨i, (validateDilemmaText minLen (pyStrip l)).2, h1⟩
      · exact ih _ h2

/-! ## Claims -/

/-- **C2, counterexample.**  The claim asserts every scorer's result lies in
[0,1], "in particular … also for cost efficiency computed from token_count and
cost_per_token against the assumed 2000-token ceiling"; but
`_calculate_cost_efficiency(4000, 0.01)` = `1 - (4000*0.01)/(2000*0.01)` = −1,
which is below 0. -/
theorem cost_efficiency_escapes_unit_range :
    calcCostEfficiency 4000 (1 / 100) < 0 ∧ calcCostEfficiency 4000 (1 / 100) = -1 := by
  constructor <;> norm_num [calcCostEfficiency]

/-- **C2, amended.**  Every keyword-count scorer (recommendation clarity,
constitutional coverage, ethical consistency, per-category impact score)
returns a value in [0,1] and returns 0 on the empty string; cost efficiency,
however, equals `1 - token_count/2000` whenever `cost_per_token ≠ 0`, and is
therefore negative — outside [0,1] — whenever `token_count > 2000`. -/
theorem scorer_range_amended :
    (∀ r : String, 0 ≤ calcRecommendationClarity r ∧ calcRecommendationClarity r ≤ 1) ∧
    (∀ r : String, 0 ≤ calcConstitutionalCoverage r ∧ calcConstitutionalCoverage r ≤ 1) ∧
    (∀ r : String, 0 ≤ calcEthicalConsistency r ∧ calcEthicalConsistency r ≤ 1) ∧
    (∀ (r : String) (c : ImpactCategory),
      0 ≤ calcCategoryScore r c ∧ calcCategoryScore r c ≤ 1) ∧
    (calcRecommendationClarity "" = 0 ∧ calcConstitutionalCoverage "" = 0 ∧
      calcEthicalConsistency "" = 0 ∧ ∀ c, calcCategoryScore "" c = 0) ∧
    (∀ (tc : ℕ) (cpt : ℚ), cpt ≠ 0 →
      calcCostEfficiency tc cpt = 1 - (tc : ℚ) / 2000) ∧
    (∀ (tc : ℕ) (cpt : ℚ), cpt ≠ 0 → 2000 < tc → calcCostEfficiency tc cpt < 0) := by
  have hclar : ∀ r : String,
      0 ≤ calcRecommendationClarity r ∧ calcRecommendationClarity r ≤ 1 := by
    intro r
    exact min_ratio_bounds _ _ (by decide)
  have hconsist : ∀ r : String,
      0 ≤ calcEthicalConsistency r ∧ calcEthicalConsistency r ≤ 1 := by
    intro r
    exact min_ratio_bounds _ _ (by decide)
  have hcost : ∀ (tc : ℕ) (cpt : ℚ), cpt ≠ 0 →
      calcCostEfficiency tc cpt = 1 - (tc : ℚ) / 2000 := by
    intro tc cpt hc
    unfold calcCostEfficiency
    field_simp
    ring
  refine ⟨hclar, ?_, hconsist, ?_, ?_, hcost, ?_⟩
  · intro r
    unfold calcConstitutionalCoverage
    have hl : (0 : ℚ) < (CONSTITUTIONAL_PRINCIPLES.length : ℚ) := by
      norm_num [CONSTITUTIONAL_PRINCIPLES]
    constructor
    · positivity
    · rw [div_le_one hl]
      have := List.countP_le_length
        (l := CONSTITUTIONAL_PRINCIPLES)
        (p := fun t => containsSub (toLowerStr r) (toLowerStr t))
      exact_mod_cast this
  · intro r c
    exact min_ratio_bounds _ _ (by cases c <;> decide)
  · have h1 : countHits "" clarityIndicators = 0 := by decide
    have h2 : countHits "" CONSTITUTIONAL_PRINCIPLES = 0 := by decide
    have h3 : countHits "" consistencyIndicators = 0 := by decide
    refine ⟨?_, ?_, ?_, ?_⟩
    · rw [calcRecommendationClarity, h1]
      norm_num
    · rw [calcConstitutionalCoverage, h2]
      norm_num
    · rw [calcEthicalConsistency, h3]
      norm_num
    · intro c
      have h4 : categoryMatchCount "" c = 0 := by cases c <;> decide
      rw [calcCategoryScore, h4]
      norm_num
  · intro tc cpt hc htc
    rw [hcost tc cpt hc]
    have : (2000 : ℚ) < (tc : ℚ) := by exact_mod_cast htc
    rw [sub_neg]
    rw [lt_div_iff (by norm_num)]
    linarith

/-- **C2, witness.** -/
theorem scorer_range_amended_witness :
    (0 ≤ calcRecommendationClarity "You should act" ∧
      calcRecommendationClarity "You should act" ≤ 1) ∧
    ((1 : ℚ) / 100 ≠ 0 ∧ calcCostEfficiency 2500 (1 / 100) < 0) := by
  refine ⟨scorer_range_amended.1 "You should act", by norm_num, ?_⟩
  exact scorer_range_amended.2.2.2.2.2.2 2500 (1 / 100) (by norm_num) (by norm_num)

/-- **C3, counterexample.**  The claim's "every non-empty string containing
`?` is accepted" fails: `"Why?"` is non-empty and contains `?`, yet the
validator rejects it for being shorter than the default minimum of 50. -/
theorem short_question_rejected :
    ("Why?" : String) ≠ "" ∧ containsSub "Why?" "?" = true ∧
    validateDilemmaText MIN_DILEMMA_LENGTH "Why?" =
      (false, "Dilemma text too short (minimum 50 characters)") := by
  refine ⟨by decide, by decide, by decide⟩

/-- **C3, amended.**  The validator accepts exactly the strings that are
non-empty, of length at least the configured minimum, and containing `?`
(so a non-empty string with `?` is accepted only when it also meets the
length minimum); each violation yields its specific reason string, checked in
the order emptiness, length, question mark; and in file validation the reasons
are collected as `"Line {i}: {reason}"` strings, with overall success exactly
when no error was collected. -/
theorem validator_accepts_iff :
    (∀ (minLen : ℕ) (d : String),
      (validateDilemmaText minLen d).1 = true ↔
        d ≠ "" ∧ minLen ≤ d.length ∧ containsSub d "?" = true) ∧
    (∀ minLen : ℕ,
      (validateDilemmaText minLen "").2 = "Dilemma must be a non-empty string") ∧
    (∀ (minLen : ℕ) (d : String), d ≠ "" → d.length < minLen →
      (validateDilemmaText minLen d).2 =
        "Dilemma text too short (minimum " ++ toString minLen ++ " characters)") ∧
    (∀ (minLen : ℕ) (d : String), d ≠ "" → minLen ≤ d.length →
      containsSub d "?" = false →
      (validateDilemmaText minLen d).2 = "Dilemma must be a question") ∧
    (∀ (minLen : ℕ) (lines : List String),
      (validateDilemmasLines minLen lines).1 = true ↔
        (validateDilemmasLines minLen lines).2 = []) ∧
    (∀ (minLen : ℕ) (lines : List String) (e : String),
      e ∈ (validateDilemmasLines minLen lines).2 →
      ∃ (j : ℕ) (msg : String), e = "Line " ++ toString j ++ ": " ++ msg) := by
  refine ⟨?_, ?_, ?_, ?_, ?_, ?_⟩
  · intro minLen d
    unfold validateDilemmaText
    split_ifs with h1 h2 h3 <;> simp_all <;> omega
  · intro minLen
    simp [validateDilemmaText]
  · intro minLen d h1 h2
    simp [validateDilemmaText, h1, h2]
  · intro minLen d h1 h2 h3
    rw [validateDilemmaText]
    rw [if_neg h1, if_neg (by omega), if_pos (by simp [h3])]
  · intro minLen lines
    simp [validateDilemmasLines]
  · intro minLen lines e he
    exact collectLineErrors_mem minLen 1 lines e he

/-- **C3, witness.** -/
theorem validator_accepts_iff_witness :
    (validateDilemmaText 50
        "Should a city ban cars from its center to cut emissions, or not?").1 = true ∧
    (validateDilemmaText 50 "Too short?").2 =
      "Dilemma text too short (minimum 50 characters)" ∧
    (validateDilemmasLines 50 ["", "ok?"]).1 = false := by
  refine ⟨?_, ?_, ?_⟩
  · exact (validator_accepts_iff.1 50 _).mpr ⟨by decide, by decide, by decide⟩
  · exact validator_accepts_iff.2.2.1 50 "Too short?" (by decide) (by decide)
  · have h := validator_accepts_iff.2.2.2.2.1 50 ["", "ok?"]
    by_contra hc
    simp only [Bool.not_eq_false] at hc
    have := h.mp hc
    revert this
    decide

/-- **C4.**  `_calculate_category_risk` maps the keyword-match count to a risk
level purely by the thresholds: ≥4 ⇒ CRITICAL, 3 ⇒ HIGH, 2 ⇒ MODERATE,
≤1 ⇒ LOW (so exactly 4 matches give CRITICAL and exactly 1 gives LOW). -/
theorem category_risk_thresholds :
    (∀ (d : String) (fs : List String),
      4 ≤ riskMatchCount d fs → calcCategoryRisk d fs = .critical) ∧
    (∀ (d : String) (fs : List String),
      riskMatchCount d fs = 3 → calcCategoryRisk d fs = .high) ∧
    (∀ (d : String) (fs : List String),
      riskMatchCount d fs = 2 → calcCategoryRisk d fs = .moderate) ∧
    (∀ (d : String) (fs : List String),
      riskMatchCount d fs ≤ 1 → calcCategoryRisk d fs = .low) := by
  refine ⟨?_, ?_, ?_, ?_⟩ <;>
    · intro d fs h
      unfold calcCategoryRisk riskLevelOfCount
      split_ifs <;> first | rfl | omega

/-- **C4, witness.**  Against the environmental risk-factor list, a decision
text matching exactly 4 factors is CRITICAL and one matching exactly 1 factor
is LOW. -/
theorem category_risk_thresholds_witness :
    riskMatchCount "climate pollution loss disasters?"
        ["climate change", "resource scarcity", "pollution",
         "biodiversity loss", "natural disasters"] = 4 ∧
    calcCategoryRisk "climate pollution loss disasters?"
        ["climate change", "resource scarcity", "pollution",
         "biodiversity loss", "natural disasters"] = .critical ∧
    riskMatchCount "pollution only"
        ["climate change", "resource scarcity", "pollution",
         "biodiversity loss", "natural disasters"] = 1 ∧
    calcCategoryRisk "pollution only"
        ["climate change", "resource scarcity", "pollution",
         "biodiversity loss", "natural disasters"] = .low := by
  refine ⟨by decide, ?_, by decide, ?_⟩
  · exact category_risk_thresholds.1 _ _ (by decide)
  · exact category_risk_thresholds.2.2.2 _ _ (by decide)

/-- **C10.**  The impact severity is bounded below by the group's static
vulnerability level: vulnerability ≥ 0.75 forces CRITICAL for every decision
text — in particular for the predefined `vulnerable` (0.9) and `environment`
(0.8) groups — and vulnerability ≥ 0.5 rules out LOW and MEDIUM. -/
theorem impact_severity_vulnerability_floor :
    (∀ (d : String) (v : ℚ), 3 / 4 ≤ v →
      determineImpactSeverity d v = .critical) ∧
    (∀ (d : String) (v : ℚ), 1 / 2 ≤ v →
      determineImpactSeverity d v ≠ .low ∧ determineImpactSeverity d v ≠ .medium) ∧
    (∀ d : String,
      determineImpactSeverity d vulnerableGroup.vulnerability_level = .critical) ∧
    (∀ d : String,
      determineImpactSeverity d environmentGroup.vulnerability_level = .critical) := by
  refine ⟨determineImpactSeverity_critical_of, ?_, ?_, ?_⟩
  · intro d v h
    rcases determineImpactSeverity_high_of d v h with h' | h' <;>
      simp [h']
  · intro d
    exact determineImpactSeverity_critical_of d _ (by norm_num [vulnerableGroup])
  · intro d
    exact determineImpactSeverity_critical_of d _ (by norm_num [environmentGroup])

/-- **C1.**  Because `_identify_ethical_principles` resolves to an
`AttributeError` (it is defined on no class in the MRO), `analyze_dilemma`
raises before any `EthicalAnalysis` is constructed: the embedded function
returns that error for every dilemma, context and flag combination. -/
theorem analyze_dilemma_always_errors {B E S L A : Type}
    (st : ChainerStages B E S L A) (hb hbm he : Bool) (mu ts d : String)
    (c : Option (List String)) (ib : Bool)
    (h : st.identify_ethical_principles = identifyEthicalPrinciplesCall) :
    analyzeDilemma st hb hbm he mu ts d c ib =
      .error (.attributeError "_identify_ethical_principles") := by
  unfold analyzeDilemma
  rw [h]
  rfl

/-- **C1, witness.** -/
theorem analyze_dilemma_always_errors_witness :
    analyzeDilemma
      { identify_ethical_principles := identifyEthicalPrinciplesCall
        analyze_dilemma_core := fun _ _ => .ok ""
        generate_recommendations := fun _ => .ok []
        calculate_confidence_score := fun _ _ _ => .ok (mkRat 1 2)
        benchmark_model := fun _ => .ok ()
        analyze_ethical_alignment := fun _ => .ok ()
        analyze_stakeholder_impacts := fun _ _ => .ok ()
        analyze_long_term_impacts := fun _ _ => .ok ()
        generate_ai_explanation := fun _ _ => .ok ()
        : ChainerStages Unit Unit Unit Unit Unit }
      true true true "gpt-4" "2025-01-01" "Should we?" none true =
      .error (.attributeError "_identify_ethical_principles") :=
  analyze_dilemma_always_errors _ true true true "gpt-4" "2025-01-01"
    "Should we?" none true rfl

/-- **C5.**  The soft stages (benchmarking, ethical alignment, stakeholder
impacts, long-term impacts, explanation) are attempted and an exception in
any of them merely leaves the corresponding field absent while the rest of
the result is returned; an exception in any of the four core stages
propagates and no partial result is produced. -/
theorem soft_stages_recoverable_core_fatal :
    (∀ {B E S L A : Type} (st : ChainerStages B E S L A) (hb hbm he : Bool)
      (mu ts d : String) (c : Option (List String)) (ib : Bool)
      (ps : List String) (an : String) (rs : List String) (cf : ℚ),
      st.identify_ethical_principles d = .ok ps →
      st.analyze_dilemma_core d ps = .ok an →
      st.generate_recommendations an = .ok rs →
      st.calculate_confidence_score d an rs = .ok cf →
      analyzeDilemma st hb hbm he mu ts d c ib = .ok
        { dilemma := d, context := c.getD [], ethical_principles := ps,
          analysis := an, recommendations := rs, confidence_score := cf,
          model_used := mu, timestamp := ts,
          benchmark_results :=
            if ib && hb && hbm then (st.benchmark_model d).toOption else none,
          ethical_alignment := (st.analyze_ethical_alignment an).toOption,
          stakeholder_impacts := (st.analyze_stakeholder_impacts d c).toOption,
          long_term_impact := (st.analyze_long_term_impacts d c).toOption,
          ai_explanation :=
            if he then (st.generate_ai_explanation d an).toOption else none }) ∧
    (∀ {B E S L A : Type} (st : ChainerStages B E S L A) (hb hbm he : Bool)
      (mu ts d : String) (c : Option (List String)) (ib : Bool)
      (ps : List String) (an : String) (rs : List String) (cf : ℚ)
      (e1 e2 e3 e4 e5 : PyErr),
      st.identify_ethical_principles d = .ok ps →
      st.analyze_dilemma_core d ps = .ok an →
      st.generate_recommendations an = .ok rs →
      st.calculate_confidence_score d an rs = .ok cf →
      st.benchmark_model d = .error e1 →
      st.analyze_ethical_alignment an = .error e2 →
      st.analyze_stakeholder_impacts d c = .error e3 →
      st.analyze_long_term_impacts d c = .error e4 →
      st.generate_ai_explanation d an = .error e5 →
      analyzeDilemma st hb hbm he mu ts d c ib = .ok
        { dilemma := d, context := c.getD [], ethical_principles := ps,
          analysis := an, recommendations := rs, confidence_score := cf,
          model_used := mu, timestamp := ts,
          benchmark_results := none, ethical_alignment := none,
          stakeholder_impacts := none, long_term_impact := none,
          ai_explanation := none }) ∧
    (∀ {B E S L A : Type} (st : ChainerStages B E S L A) (hb hbm he : Bool)
      (mu ts d : String) (c : Option (List String)) (ib : Bool) (e : PyErr),
      st.identify_ethical_principles d = .error e →
      analyzeDilemma st hb hbm he mu ts d c ib = .error e) ∧
    (∀ {B E S L A : Type} (st : ChainerStages B E S L A) (hb hbm he : Bool)
      (mu ts d : String) (c : Option (List String)) (ib : Bool)
      (ps : List String) (e : PyErr),
      st.identify_ethical_principles d = .ok ps →
      st.analyze_dilemma_core d ps = .error e →
      analyzeDilemma st hb hbm he mu ts d c ib = .error e) ∧
    (∀ {B E S L A : Type} (st : ChainerStages B E S L A) (hb hbm he : Bool)
      (mu ts d : String) (c : Option (List String)) (ib : Bool)
      (ps : List String) (an : String) (e : PyErr),
      st.identify_ethical_principles d = .ok ps →
      st.analyze_dilemma_core d ps = .ok an →
      st.generate_recommendations an = .error e →
      analyzeDilemma st hb hbm he mu ts d c ib = .error e) ∧
    (∀ {B E S L A : Type} (st : ChainerStages B E S L A) (hb hbm he : Bool)
      (mu ts d : String) (c : Option (List String)) (ib : Bool)
      (ps : List String) (an : String) (rs : List String) (e : PyErr),
      st.identify_ethical_principles d = .ok ps →
      st.analyze_dilemma_core d ps = .ok an →
      st.generate_recommendations an = .ok rs →
      st.calculate_confidence_score d an rs = .error e →
      analyzeDilemma st hb hbm he mu ts d c ib = .error e) := by
  refine ⟨?_, ?_, ?_, ?_, ?_, ?_⟩
  · intro B E S L A st hb hbm he mu ts d c ib ps an rs cf h1 h2 h3 h4
    unfold analyzeDilemma
    simp only [h1, h2, h3, h4]
  · intro B E S L A st hb hbm he mu ts d c ib ps an rs cf e1 e2 e3 e4 e5
      h1 h2 h3 h4 g1 g2 g3 g4 g5
    unfold analyzeDilemma
    simp only [h1, h2, h3, h4, g1, g2, g3, g4, g5]
    simp [Except.toOption]
  · intro B E S L A st hb hbm he mu ts d c ib e h1
    unfold analyzeDilemma
    simp only [h1]
  · intro B E S L A st hb hbm he mu ts d c ib ps e h1 h2
    unfold analyzeDilemma
    simp only [h1, h2]
  · intro B E S L A st hb hbm he mu ts d c ib ps an e h1 h2 h3
    unfold analyzeDilemma
    simp only [h1, h2, h3]
  · intro B E S L A st hb hbm he mu ts d c ib ps an rs e h1 h2 h3 h4
    unfold analyzeDilemma
    simp only [h1, h2, h3, h4]

/-- **C5, witness.**  With all four core stages succeeding and all five soft
stages raising, the run still returns a result whose optional fields are all
absent; with the second core stage raising, the whole run aborts with that
error. -/
theorem soft_stages_recoverable_core_fatal_witness :
    analyzeDilemma
      { identify_ethical_principles := fun _ => .ok ["autonomy"]
        analyze_dilemma_core := fun _ _ => .ok "the analysis"
        generate_recommendations := fun _ => .ok ["do it"]
        calculate_confidence_score := fun _ _ _ => .ok (mkRat 1 2)
        benchmark_model := fun _ => .error (.generic "boom1")
        analyze_ethical_alignment := fun _ => .error (.generic "boom2")
        analyze_stakeholder_impacts := fun _ _ => .error (.generic "boom3")
        analyze_long_term_impacts := fun _ _ => .error (.generic "boom4")
        generate_ai_explanation := fun _ _ => .error (.generic "boom5")
        : ChainerStages Unit Unit Unit Unit Unit }
      true true true "gpt-4" "2025-01-01" "Should we?" none true = .ok
      { dilemma := "Should we?", context := [], ethical_principles := ["autonomy"],
        analysis := "the analysis", recommendations := ["do it"],
        confidence_score := mkRat 1 2, model_used := "gpt-4",
        timestamp := "2025-01-01", benchmark_results := none,
        ethical_alignment := none, stakeholder_impacts := none,
        long_term_impact := none, ai_explanation := none } ∧
    analyzeDilemma
      { identify_ethical_principles := fun _ => .ok ["autonomy"]
        analyze_dilemma_core := fun _ _ => .error (.generic "model down")
        generate_recommendations := fun _ => .ok []
        calculate_confidence_score := fun _ _ _ => .ok (mkRat 1 2)
        benchmark_model := fun _ => .ok ()
        analyze_ethical_alignment := fun _ => .ok ()
        analyze_stakeholder_impacts := fun _ _ => .ok ()
        analyze_long_term_impacts := fun _ _ => .ok ()
        generate_ai_explanation := fun _ _ => .ok ()
        : ChainerStages Unit Unit Unit Unit Unit }
      true true true "gpt-4" "2025-01-01" "Should we?" none true =
      .error (.generic "model down") := by
  constructor
  · exact soft_stages_recoverable_core_fatal.2.1 _ true true true "gpt-4"
      "2025-01-01" "Should we?" none true ["autonomy"] "the analysis" ["do it"]
      (mkRat 1 2) _ _ _ _ _ rfl rfl rfl rfl rfl rfl rfl rfl rfl
  · exact soft_stages_recoverable_core_fatal.2.2.2.1 _ true true true "gpt-4"
      "2025-01-01" "Should we?" none true ["autonomy"] _ rfl rfl

/-- **C6, counterexample.**  The claim's headline — stage N's prompt contains,
verbatim, the exact text returned by stage N−1 — fails at stage 2: when the
stage-1 response has two non-blank lines (here the canned response
`"A\nB"`), `get_reasoning_prompt` re-bullets the parsed lines as
`"- A\n- B"`, so the raw prior text `"A\nB"` does not occur in the stage-2
payload. -/
theorem stage2_payload_misses_raw_stage1 :
    (runChain (fun _ => "A\nB") "Q?").principlesRaw = "A\nB" ∧
    (runChain (fun _ => "A\nB") "Q?").principles = ["A", "B"] ∧
    containsSub ((runChain (fun _ => "A\nB") "Q?").reasoningPrompt) "A\nB" = false := by
  refine ⟨rfl, by decide, by decide⟩

/-- **C6, amended.**  Each chain stage's prompt embeds the parsed content of
the earlier stages verbatim: the reasoning prompt contains the dilemma and
every identified principle, the recommendation prompt contains the full
stage-2 reasoning text, and the confidence prompt contains the dilemma, the
reasoning, and every recommendation.  (The full raw stage-1/stage-3 texts
are re-bulleted line by line, so they appear verbatim only when they are a
single non-blank line.) -/
theorem chain_prompts_embed_prior_outputs (model : String → String)
    (dilemma : String) :
    containsSub (runChain model dilemma).reasoningPrompt dilemma = true ∧
    (∀ p ∈ (runChain model dilemma).principles,
      containsSub (runChain model dilemma).reasoningPrompt p = true) ∧
    containsSub (runChain model dilemma).recommendationPrompt
      (runChain model dilemma).reasoning = true ∧
    containsSub (runChain model dilemma).confidencePrompt dilemma = true ∧
    containsSub (runChain model dilemma).confidencePrompt
      (runChain model dilemma).reasoning = true ∧
    (∀ r ∈ (runChain model dilemma).recommendations,
      containsSub (runChain model dilemma).confidencePrompt r = true) := by
  refine ⟨?_, ?_, ?_, ?_, ?_, ?_⟩
  · exact containsSub_append_right _ _ _ (containsSub_head _ _)
  · intro p hp
    refine containsSub_append_right _ _ _ (containsSub_append_right _ _ _
      (containsSub_append_right _ _ _ (containsSub_append_left _ _ _ ?_)))
    exact bulletJoin_contains _ p hp
  · exact containsSub_append_right _ _ _ (containsSub_head _ _)
  · exact containsSub_append_right _ _ _ (containsSub_head _ _)
  · exact containsSub_append_right _ _ _ (containsSub_append_right _ _ _
      (containsSub_append_right _ _ _ (containsSub_head _ _)))
  · intro r hr
    refine containsSub_append_right _ _ _ (containsSub_append_right _ _ _
      (containsSub_append_right _ _ _ (containsSub_append_right _ _ _
        (containsSub_append_right _ _ _ (containsSub_append_left _ _ _ ?_)))))
    exact bulletJoin_contains _ r hr

/-- **C6, witness.** -/
theorem chain_prompts_embed_prior_outputs_witness :
    containsSub
      ((runChain (fun _ => "- Fairness") "Should we automate hiring?").reasoningPrompt)
      "- Fairness" = true ∧
    containsSub
      ((runChain (fun _ => "- Fairness") "Should we automate hiring?").confidencePrompt)
      "Should we automate hiring?" = true := by
  constructor
  · exact (chain_prompts_embed_prior_outputs (fun _ => "- Fairness")
      "Should we automate hiring?").2.1 "- Fairness" (by decide)
  · exact (chain_prompts_embed_prior_outputs (fun _ => "- Fairness")
      "Should we automate hiring?").2.2.2.1

/-- **C7.**  In batch CSV mode, two dilemmas against two models append
exactly 4 data rows of 7 columns each (Model, Dilemma, Framing, Stakeholders,
Consequences, Principles, Solution): starting with no output file the header
is written exactly once ahead of the 4 rows, and starting from a pre-existing
file the 4 rows are appended with no further header write. -/
theorem batch_csv_four_rows_header_once
    (analyze : String → String → BatchAnalysisRecord) (m1 m2 d1 d2 : String)
    (h1 : pyStrip d1 ≠ "") (h2 : pyStrip d2 ≠ "") :
    (batchCsv analyze [m1, m2] [d1, d2] ⟨none, 0⟩ =
      ⟨some [csvHeader,
        csvRowOf m1 (analyze m1 d1), csvRowOf m1 (analyze m1 d2),
        csvRowOf m2 (analyze m2 d1), csvRowOf m2 (analyze m2 d2)], 1⟩) ∧
    (∀ (rows : List (List String)) (k : ℕ),
      batchCsv analyze [m1, m2] [d1, d2] ⟨some rows, k⟩ =
        ⟨some (rows ++
          [csvRowOf m1 (analyze m1 d1), csvRowOf m1 (analyze m1 d2),
           csvRowOf m2 (analyze m2 d1), csvRowOf m2 (analyze m2 d2)]), k⟩) ∧
    (∀ (m : String) (a : BatchAnalysisRecord), (csvRowOf m a).length = 7) ∧
    csvHeader.length = 7 := by
  refine ⟨?_, ?_, fun m a => rfl, rfl⟩
  · simp [batchCsv, processDilemmas, csvAppendRow, h1, h2]
  · intro rows k
    simp [batchCsv, processDilemmas, csvAppendRow, h1, h2]

/-- **C7, witness.** -/
theorem batch_csv_four_rows_header_once_witness :
    batchCsv (fun m d => ⟨d, "framing by " ++ m, "s", "c", "p", "solution"⟩)
      ["gpt-4", "grok-3"] ["Ban cars?", "Tax meat?"] ⟨none, 0⟩ =
      ⟨some [csvHeader,
        ["gpt-4", "Ban cars?", "framing by gpt-4", "s", "c", "p", "solution"],
        ["gpt-4", "Tax meat?", "framing by gpt-4", "s", "c", "p", "solution"],
        ["grok-3", "Ban cars?", "framing by grok-3", "s", "c", "p", "solution"],
        ["grok-3", "Tax meat?", "framing by grok-3", "s", "c", "p", "solution"]],
       1⟩ :=
  (batch_csv_four_rows_header_once
    (fun m d => ⟨d, "framing by " ++ m, "s", "c", "p", "solution"⟩)
    "gpt-4" "grok-3" "Ban cars?" "Tax meat?" (by decide) (by decide)).1

/-- **C8, counterexample.**  On the spec's end-to-end scenario (the
self-driving-car dilemma, a mocked client returning canned strings), the
report produced by `format_analysis` contains none of the five six-stage
headers "Ethical Framework Analysis", "Trade-off Analysis",
"Bias and Assumption Check", "Values Alignment", "Solution" — those belong
to a chain variant that is not the `src/` formatter. -/
theorem report_missing_six_stage_headers :
    containsSub scenarioReport "Ethical Framework Analysis" = false ∧
    containsSub scenarioReport "Trade-off Analysis" = false ∧
    containsSub scenarioReport "Bias and Assumption Check" = false ∧
    containsSub scenarioReport "Values Alignment" = false ∧
    containsSub scenarioReport "Solution" = false := by
  refine ⟨by decide, by decide, by decide, by decide, by decide⟩

/-- **C8, amended.**  For every analysis record and collaborator formatters
(hence in particular for the scenario run), the `format_analysis` report
contains the dilemma text verbatim and a "Context:" line, but its section
headers are those of the `src/` formatter — "Ethical Principles:",
"Analysis:", "Recommendations:", "Confidence Score:" — not the six headers
the claim lists. -/
theorem report_contains_dilemma_and_actual_headers {B L A : Type}
    (bf : B → String) (lf : L → String) (ef : A → String)
    (a : EthicalAnalysisR B (List (String × ℚ)) (List StakeholderImpactR) L A) :
    containsSub (formatAnalysis bf lf ef a) a.dilemma = true ∧
    containsSub (formatAnalysis bf lf ef a) "Context:" = true ∧
    containsSub (formatAnalysis bf lf ef a) "Ethical Principles:" = true ∧
    containsSub (formatAnalysis bf lf ef a) "Analysis:" = true ∧
    containsSub (formatAnalysis bf lf ef a) "Recommendations:" = true ∧
    containsSub (formatAnalysis bf lf ef a) "Confidence Score:" = true := by
  unfold formatAnalysis
  refine ⟨?_, ?_, ?_, ?_, ?_, ?_⟩
  · iterate 4 apply containsSub_append_right
    exact containsSub_head _ _
  · iterate 6 apply containsSub_append_right
    exact containsSub_append_left _ _ _ (by decide)
  · iterate 15 apply containsSub_append_right
    exact containsSub_append_left _ _ _ (by decide)
  · iterate 20 apply containsSub_append_right
    exact containsSub_append_left _ _ _ (by decide)
  · iterate 25 apply containsSub_append_right
    exact containsSub_append_left _ _ _ (by decide)
  · iterate 30 apply containsSub_append_right
    exact containsSub_append_left _ _ _ (by decide)

/-- **C9.**  Modelled from the spec (the `_calculate_confidence_score`
helper is absent from `src/`): the model's final text is parsed as a decimal
number, defaulting to 0.5 on failure, so `"0.85"` yields 0.85 and
`"not a number"` yields 0.5. -/
theorem confidence_parse_default :
    parseConfidence "0.85" = 17 / 20 ∧ parseConfidence "not a number" = 1 / 2 := by
  constructor
  · have h : parseConfidence "0.85" = mkRat 85 100 := by decide
    rw [h, Rat.mkRat_eq_div]
    norm_num
  · have h : parseConfidence "not a number" = mkRat 1 2 := by decide
    rw [h, Rat.mkRat_eq_div]
    norm_num

/-- **C10, witness.** -/
theorem impact_severity_vulnerability_floor_witness :
    determineImpactSeverity "a perfectly ordinary decision" (9 / 10) = .critical ∧
    determineImpactSeverity "minor tweak" (6 / 10) ≠ .low := by
  refine ⟨impact_severity_vulnerability_floor.1 _ _ (by norm_num), ?_⟩
  exact (impact_severity_vulnerability_floor.2.1 "minor tweak" (6 / 10)
    (by norm_num)).1

end EPC
